import Mathlib

/-!
Verification of the route-guard subsystem of the Scheduler front-end
(`src/App.jsx`): the `ProtectedRoute` and `PublicRoute` wrappers and the
`App` route table.

The embedding models a single mounted guard instance as an explicit state
record, and the asynchronous environment (the one-shot `isAuthenticated()`
probe, the `onAuthStateChanged` push stream, and deactivation) as a list of
events folded through a step function.  React runtime semantics that the
code relies on are made explicit:

* a `useState` setter invoked against an unmounted instance performs no
  write (modelled by `reactSetState`, which checks the `mounted` flag);
* the effect cleanup returned from `useEffect` (here, the closure invoking
  `unsubscribe()`) runs exactly once, at unmount;
* once `unsubscribe()` has run, the `onAuthStateChanged` handler is no
  longer invoked (modelled by the `subscribed` flag).
-/

/-- JavaScript truthiness of the `isAuthenticated` state value, which ranges
over `null | boolean` (`useState(null)` initially, booleans afterwards). -/
def truthy : Option Bool → Bool
  | none => false
  | some b => b

/-- The pair of `useState` cells of a guard component:
`isAuthenticated` (initially `null`) and `isLoading` (initially `true`). -/
structure ComponentState where
  isAuthenticated : Option Bool
  isLoading : Bool
deriving DecidableEq

/-- One mounted guard instance together with the React bookkeeping the code
relies on: whether the instance is still mounted, whether the
`onAuthStateChanged` subscription is still live, how many times
`unsubscribe()` has been invoked, and how many times `console.error` ran. -/
structure GuardInstance where
  comp : ComponentState
  mounted : Bool
  subscribed : Bool
  unsubCount : Nat
  errorLog : Nat
deriving DecidableEq

/-- Events delivered to a guard instance after its effect has run:
settlement of the one-shot `isAuthenticated()` probe (fulfilled with a
boolean, or rejected), a push notification carrying the current identity
(`null` or a non-null user value), and deactivation (unmount). -/
inductive GuardEvent where
  | probeFulfilled (authenticated : Bool)
  | probeRejected
  | authChanged (user : Option Nat)
  | deactivate
deriving DecidableEq

/-- React semantics of a `useState` setter: a write against an instance that
has been unmounted is discarded; React performs no state update there. -/
def reactSetState (inst : GuardInstance) (f : ComponentState → ComponentState) :
    GuardInstance :=
  if inst.mounted then { inst with comp := f inst.comp } else inst

/-- The rendered output of a guard: the pending spinner, a `Navigate`
redirect, or the wrapped `children`. -/
inductive Rendered (α : Type) where
  | pendingIndicator
  | redirect (target : String)
  | content (c : α)
deriving DecidableEq

/-- `ProtectedRoute` initial component state (src/App.jsx lines 13-14):
`useState(null)` and `useState(true)`. -/
def ProtectedRoute.initialState : ComponentState :=
  { isAuthenticated := none, isLoading := true }

/-- A freshly activated `ProtectedRoute` instance, right after its effect
ran: probe in flight, subscription live, cleanup not yet invoked. -/
def ProtectedRoute.initial : GuardInstance :=
  { comp := ProtectedRoute.initialState
    mounted := true
    subscribed := true
    unsubCount := 0
    errorLog := 0 }

/-- `ProtectedRoute.checkAuth`, success path (lines 19-20, 24-26): the
awaited probe fulfilled with `authenticated`; `setIsAuthenticated` with that
boolean, then the `finally` clause runs `setIsLoading(false)`. -/
def ProtectedRoute.onProbeFulfilled (b : Bool) (inst : GuardInstance) :
    GuardInstance :=
  let inst := reactSetState inst (fun c => { c with isAuthenticated := some b })
  reactSetState inst (fun c => { c with isLoading := false })

/-- `ProtectedRoute.checkAuth`, failure path (lines 21-26): the probe
rejected; `console.error` logs the error (unconditionally — logging is not
a state write), `setIsAuthenticated(false)`, then the `finally` clause runs
`setIsLoading(false)`. -/
def ProtectedRoute.onProbeRejected (inst : GuardInstance) : GuardInstance :=
  let inst := { inst with errorLog := inst.errorLog + 1 }
  let inst := reactSetState inst (fun c => { c with isAuthenticated := some false })
  reactSetState inst (fun c => { c with isLoading := false })

/-- `ProtectedRoute` `onAuthStateChanged` handler (lines 32-35): while the
subscription is live, each notification runs `setIsAuthenticated(!!user)`
and `setIsLoading(false)`; after `unsubscribe()` the handler is not
invoked. -/
def ProtectedRoute.onAuthChanged (user : Option Nat) (inst : GuardInstance) :
    GuardInstance :=
  if inst.subscribed then
    let inst := reactSetState inst
      (fun c => { c with isAuthenticated := some user.isSome })
    reactSetState inst (fun c => { c with isLoading := false })
  else inst

/-- `ProtectedRoute` deactivation (line 37): React unmounts the instance and
invokes the effect cleanup `() => unsubscribe()` exactly once; the
subscription is released.  A second deactivation of an already-unmounted
instance does not occur (modelled as a no-op). -/
def ProtectedRoute.onDeactivate (inst : GuardInstance) : GuardInstance :=
  if inst.mounted then
    { inst with mounted := false, subscribed := false,
                unsubCount := inst.unsubCount + 1 }
  else inst

/-- One environment event applied to a `ProtectedRoute` instance. -/
def ProtectedRoute.step (inst : GuardInstance) : GuardEvent → GuardInstance
  | GuardEvent.probeFulfilled b => ProtectedRoute.onProbeFulfilled b inst
  | GuardEvent.probeRejected => ProtectedRoute.onProbeRejected inst
  | GuardEvent.authChanged u => ProtectedRoute.onAuthChanged u inst
  | GuardEvent.deactivate => ProtectedRoute.onDeactivate inst

/-- A whole event trace applied to a `ProtectedRoute` instance. -/
def ProtectedRoute.run (inst : GuardInstance) (es : List GuardEvent) :
    GuardInstance :=
  es.foldl ProtectedRoute.step inst

/-- `ProtectedRoute` render (lines 40-55): `isLoading` → spinner;
`!isAuthenticated` (JS truthiness) → `<Navigate to="/login" replace />`;
otherwise the wrapped `children`. -/
def ProtectedRoute.render {α : Type} (children : α) (s : ComponentState) :
    Rendered α :=
  if s.isLoading then Rendered.pendingIndicator
  else if !(truthy s.isAuthenticated) then Rendered.redirect "/login"
  else Rendered.content children

/-- `PublicRoute` initial component state (lines 60-61): `useState(null)`
and `useState(true)`. -/
def PublicRoute.initialState : ComponentState :=
  { isAuthenticated := none, isLoading := true }

/-- A freshly activated `PublicRoute` instance, right after its effect
ran. -/
def PublicRoute.initial : GuardInstance :=
  { comp := PublicRoute.initialState
    mounted := true
    subscribed := true
    unsubCount := 0
    errorLog := 0 }

/-- `PublicRoute.checkAuth`, success path (lines 66-67, 71-73). -/
def PublicRoute.onProbeFulfilled (b : Bool) (inst : GuardInstance) :
    GuardInstance :=
  let inst := reactSetState inst (fun c => { c with isAuthenticated := some b })
  reactSetState inst (fun c => { c with isLoading := false })

/-- `PublicRoute.checkAuth`, failure path (lines 68-73). -/
def PublicRoute.onProbeRejected (inst : GuardInstance) : GuardInstance :=
  let inst := { inst with errorLog := inst.errorLog + 1 }
  let inst := reactSetState inst (fun c => { c with isAuthenticated := some false })
  reactSetState inst (fun c => { c with isLoading := false })

/-- `PublicRoute` `onAuthStateChanged` handler (lines 79-82). -/
def PublicRoute.onAuthChanged (user : Option Nat) (inst : GuardInstance) :
    GuardInstance :=
  if inst.subscribed then
    let inst := reactSetState inst
      (fun c => { c with isAuthenticated := some user.isSome })
    reactSetState inst (fun c => { c with isLoading := false })
  else inst

/-- `PublicRoute` deactivation (line 84): cleanup `() => unsubscribe()`. -/
def PublicRoute.onDeactivate (inst : GuardInstance) : GuardInstance :=
  if inst.mounted then
    { inst with mounted := false, subscribed := false,
                unsubCount := inst.unsubCount + 1 }
  else inst

/-- One environment event applied to a `PublicRoute` instance. -/
def PublicRoute.step (inst : GuardInstance) : GuardEvent → GuardInstance
  | GuardEvent.probeFulfilled b => PublicRoute.onProbeFulfilled b inst
  | GuardEvent.probeRejected => PublicRoute.onProbeRejected inst
  | GuardEvent.authChanged u => PublicRoute.onAuthChanged u inst
  | GuardEvent.deactivate => PublicRoute.onDeactivate inst

/-- A whole event trace applied to a `PublicRoute` instance. -/
def PublicRoute.run (inst : GuardInstance) (es : List GuardEvent) :
    GuardInstance :=
  es.foldl PublicRoute.step inst

/-- `PublicRoute` render (lines 87-102): `isLoading` → spinner;
`isAuthenticated` truthy → `<Navigate to="/" replace />`; otherwise the
wrapped `children`. -/
def PublicRoute.render {α : Type} (children : α) (s : ComponentState) :
    Rendered α :=
  if s.isLoading then Rendered.pendingIndicator
  else if truthy s.isAuthenticated then Rendered.redirect "/"
  else Rendered.content children

/-- Page components appearing as route elements in `App` (lines 105-167),
with `Layout` wrapping kept explicit. -/
inductive Page where
  | authenticationPage
  | home
  | onboarding
  | managerDashboard
  | supervisorDashboard
  | layout (inner : Page)
deriving DecidableEq

/-- A route element of the `App` table: content wrapped in `PublicRoute`,
content wrapped in `ProtectedRoute`, or a bare `<Navigate>`. -/
inductive RouteElement where
  | publicGuard (content : Page)
  | protectedGuard (content : Page)
  | navigate (target : String)
deriving DecidableEq

/-- The `App` route table (lines 108-164): the five declared exact paths,
with every other path caught by `path="*"` and sent to `/`. -/
def App.routeFor (path : String) : RouteElement :=
  if path = "/login" then RouteElement.publicGuard Page.authenticationPage
  else if path = "/" then RouteElement.protectedGuard (Page.layout Page.home)
  else if path = "/onboarding" then RouteElement.protectedGuard Page.onboarding
  else if path = "/manager-dashboard" then
    RouteElement.protectedGuard (Page.layout Page.managerDashboard)
  else if path = "/supervisor-dashboard" then
    RouteElement.protectedGuard (Page.layout Page.supervisorDashboard)
  else RouteElement.navigate "/"

/-- Rendering a route element against a guard component state: a bare
`<Navigate>` redirects unconditionally; guarded elements defer to their
guard's render function. -/
def renderElement (s : ComponentState) : RouteElement → Rendered Page
  | RouteElement.publicGuard c => PublicRoute.render c s
  | RouteElement.protectedGuard c => ProtectedRoute.render c s
  | RouteElement.navigate t => Rendered.redirect t

/-! ### Helper lemmas -/

theorem reactSetState_mounted (inst : GuardInstance)
    (f : ComponentState → ComponentState) :
    (reactSetState inst f).mounted = inst.mounted := by
  unfold reactSetState; split <;> rfl

theorem reactSetState_subscribed (inst : GuardInstance)
    (f : ComponentState → ComponentState) :
    (reactSetState inst f).subscribed = inst.subscribed := by
  unfold reactSetState; split <;> rfl

theorem reactSetState_unsubCount (inst : GuardInstance)
    (f : ComponentState → ComponentState) :
    (reactSetState inst f).unsubCount = inst.unsubCount := by
  unfold reactSetState; split <;> rfl

theorem reactSetState_errorLog (inst : GuardInstance)
    (f : ComponentState → ComponentState) :
    (reactSetState inst f).errorLog = inst.errorLog := by
  unfold reactSetState; split <;> rfl

theorem reactSetState_comp_mounted (inst : GuardInstance)
    (f : ComponentState → ComponentState) (h : inst.mounted = true) :
    (reactSetState inst f).comp = f inst.comp := by
  unfold reactSetState; rw [h]; rfl

theorem reactSetState_comp_unmounted (inst : GuardInstance)
    (f : ComponentState → ComponentState) (h : inst.mounted = false) :
    (reactSetState inst f).comp = inst.comp := by
  unfold reactSetState; rw [h]; rfl

/-- The two guards are defined by textually identical effect and handler
code; their step functions agree on every instance and event. -/
theorem guardStep_eq (inst : GuardInstance) (e : GuardEvent) :
    ProtectedRoute.step inst e = PublicRoute.step inst e := by
  cases e <;> rfl

/-- The two guards agree on whole traces. -/
theorem guardRun_eq (inst : GuardInstance) (es : List GuardEvent) :
    ProtectedRoute.run inst es = PublicRoute.run inst es := by
  have h : ProtectedRoute.step = PublicRoute.step := by
    funext i e; exact guardStep_eq i e
  simp [ProtectedRoute.run, PublicRoute.run, h]

/-- The two guards start from identical instances. -/
theorem guardInitial_eq : ProtectedRoute.initial = PublicRoute.initial := rfl

/-- An unmounted instance never changes its component state, stays
unmounted, and keeps its subscription bookkeeping, whatever event fires. -/
theorem ProtectedRoute.step_unmounted (inst : GuardInstance) (e : GuardEvent)
    (h : inst.mounted = false) :
    (ProtectedRoute.step inst e).comp = inst.comp ∧
    (ProtectedRoute.step inst e).mounted = false ∧
    (ProtectedRoute.step inst e).subscribed = inst.subscribed ∧
    (ProtectedRoute.step inst e).unsubCount = inst.unsubCount := by
  cases e <;>
    simp [ProtectedRoute.step, ProtectedRoute.onProbeFulfilled,
      ProtectedRoute.onProbeRejected, ProtectedRoute.onAuthChanged,
      ProtectedRoute.onDeactivate, reactSetState, h]

/-- Trace version of `ProtectedRoute.step_unmounted`. -/
theorem ProtectedRoute.run_unmounted (inst : GuardInstance)
    (es : List GuardEvent) (h : inst.mounted = false) :
    (ProtectedRoute.run inst es).comp = inst.comp ∧
    (ProtectedRoute.run inst es).mounted = false ∧
    (ProtectedRoute.run inst es).subscribed = inst.subscribed ∧
    (ProtectedRoute.run inst es).unsubCount = inst.unsubCount := by
  induction es generalizing inst with
  | nil => exact ⟨rfl, h, rfl, rfl⟩
  | cons e rest ih =>
    obtain ⟨h1, h2, h3, h4⟩ := ProtectedRoute.step_unmounted inst e h
    obtain ⟨g1, g2, g3, g4⟩ := ih (ProtectedRoute.step inst e) h2
    refine ⟨?_, ?_, ?_, ?_⟩ <;>
      simp only [ProtectedRoute.run, List.foldl_cons] at g1 g2 g3 g4 ⊢
    · rw [g1, h1]
    · exact g2
    · rw [g3, h3]
    · rw [g4, h4]

/-- Events other than deactivation leave the React bookkeeping (mount flag,
subscription, unsubscribe count) untouched. -/
theorem ProtectedRoute.step_bookkeeping (inst : GuardInstance) (e : GuardEvent)
    (h : e ≠ GuardEvent.deactivate) :
    (ProtectedRoute.step inst e).mounted = inst.mounted ∧
    (ProtectedRoute.step inst e).subscribed = inst.subscribed ∧
    (ProtectedRoute.step inst e).unsubCount = inst.unsubCount := by
  cases e with
  | probeFulfilled b =>
    simp [ProtectedRoute.step, ProtectedRoute.onProbeFulfilled,
      reactSetState_mounted, reactSetState_subscribed, reactSetState_unsubCount]
  | probeRejected =>
    simp [ProtectedRoute.step, ProtectedRoute.onProbeRejected,
      reactSetState_mounted, reactSetState_subscribed, reactSetState_unsubCount]
  | authChanged u =>
    simp only [ProtectedRoute.step, ProtectedRoute.onAuthChanged]
    split <;>
      simp [reactSetState_mounted, reactSetState_subscribed,
        reactSetState_unsubCount]
  | deactivate => exact absurd rfl h

/-- Deactivation itself performs no component-state write: the cleanup only
releases the subscription. -/
theorem ProtectedRoute.step_deactivate_comp (inst : GuardInstance) :
    (ProtectedRoute.step inst GuardEvent.deactivate).comp = inst.comp := by
  simp only [ProtectedRoute.step, ProtectedRoute.onDeactivate]
  split <;> rfl

/-- After deactivation the mount flag is down, whatever it was before. -/
theorem ProtectedRoute.step_deactivate_mounted (inst : GuardInstance) :
    (ProtectedRoute.step inst GuardEvent.deactivate).mounted = false := by
  simp only [ProtectedRoute.step, ProtectedRoute.onDeactivate]
  split <;> simp_all

/-- Once the loading flag is down it stays down: every state-writing event
also clears it, and deactivation writes nothing. -/
theorem ProtectedRoute.step_isLoading (inst : GuardInstance) (e : GuardEvent)
    (h : inst.comp.isLoading = false) :
    (ProtectedRoute.step inst e).comp.isLoading = false := by
  cases e with
  | probeFulfilled b =>
    simp only [ProtectedRoute.step, ProtectedRoute.onProbeFulfilled,
      reactSetState]
    split <;> simp_all
  | probeRejected =>
    simp only [ProtectedRoute.step, ProtectedRoute.onProbeRejected,
      reactSetState]
    split <;> simp_all
  | authChanged u =>
    simp only [ProtectedRoute.step, ProtectedRoute.onAuthChanged,
      reactSetState]
    split <;> [skip; exact h]
    split <;> simp_all
  | deactivate => rw [ProtectedRoute.step_deactivate_comp]; exact h

/-- Trace version of `ProtectedRoute.step_isLoading`. -/
theorem ProtectedRoute.run_isLoading (inst : GuardInstance)
    (es : List GuardEvent) (h : inst.comp.isLoading = false) :
    (ProtectedRoute.run inst es).comp.isLoading = false := by
  induction es generalizing inst with
  | nil => exact h
  | cons e rest ih =>
    have hstep := ProtectedRoute.step_isLoading inst e h
    have := ih (ProtectedRoute.step inst e) hstep
    simpa only [ProtectedRoute.run, List.foldl_cons] using this

/-- From a live instance whose cleanup has not yet run, any trace containing
a deactivation ends with the subscription released and `unsubscribe()`
invoked exactly once. -/
theorem ProtectedRoute.run_unsub_once (inst : GuardInstance)
    (es : List GuardEvent) (h1 : inst.mounted = true)
    (h2 : inst.unsubCount = 0) (hmem : GuardEvent.deactivate ∈ es) :
    (ProtectedRoute.run inst es).unsubCount = 1 ∧
    (ProtectedRoute.run inst es).subscribed = false := by
  induction es generalizing inst with
  | nil => simp at hmem
  | cons e rest ih =>
    by_cases hd : e = GuardEvent.deactivate
    · subst hd
      have hm : (ProtectedRoute.step inst GuardEvent.deactivate).mounted
          = false := ProtectedRoute.step_deactivate_mounted inst
      have hc : (ProtectedRoute.step inst GuardEvent.deactivate).unsubCount = 1
          ∧ (ProtectedRoute.step inst GuardEvent.deactivate).subscribed
              = false := by
        simp [ProtectedRoute.step, ProtectedRoute.onDeactivate, h1, h2]
      obtain ⟨-, -, g3, g4⟩ :=
        ProtectedRoute.run_unmounted (ProtectedRoute.step inst
          GuardEvent.deactivate) rest hm
      constructor <;>
        simp only [ProtectedRoute.run, List.foldl_cons] at g3 g4 ⊢
      · rw [g4, hc.1]
      · rw [g3, hc.2]
    · have hmem2 : GuardEvent.deactivate ∈ rest := by
        rcases List.mem_cons.mp hmem with heq | hmem2
        · exact absurd heq.symm hd
        · exact hmem2
      obtain ⟨b1, -, b3⟩ := ProtectedRoute.step_bookkeeping inst e hd
      have := ih (ProtectedRoute.step inst e) (b1.trans h1)
        (b3.trans h2) hmem2
      simpa only [ProtectedRoute.run, List.foldl_cons] using this

/-- A guard whose loading flag is down never renders the pending
indicator. -/
theorem ProtectedRoute.render_not_pending_prot {α : Type} (children : α)
    (s : ComponentState) (h : s.isLoading = false) :
    ProtectedRoute.render children s ≠ Rendered.pendingIndicator := by
  unfold ProtectedRoute.render
  rw [h]
  split
  · simp_all
  · split <;> simp

/-- A guard whose loading flag is down never renders the pending
indicator (`PublicRoute` version). -/
theorem PublicRoute.render_not_pending_pub {α : Type} (children : α)
    (s : ComponentState) (h : s.isLoading = false) :
    PublicRoute.render children s ≠ Rendered.pendingIndicator := by
  unfold PublicRoute.render
  rw [h]
  split
  · simp_all
  · split <;> simp

/-- Unfolding: a trace starting with `e` first applies `e`. -/
theorem ProtectedRoute.run_cons (inst : GuardInstance) (e : GuardEvent)
    (es : List GuardEvent) :
    ProtectedRoute.run inst (e :: es) =
      ProtectedRoute.run (ProtectedRoute.step inst e) es := rfl

/-- A trace consisting only of deactivation events performs no
component-state write. -/
theorem ProtectedRoute.run_deactivate_only (inst : GuardInstance)
    (es : List GuardEvent) (h : ∀ e ∈ es, e = GuardEvent.deactivate) :
    (ProtectedRoute.run inst es).comp = inst.comp := by
  induction es generalizing inst with
  | nil => rfl
  | cons e rest ih =>
    have he : e = GuardEvent.deactivate := h e (List.mem_cons_self e rest)
    subst he
    rw [ProtectedRoute.run_cons,
      ih (ProtectedRoute.step inst GuardEvent.deactivate)
        (fun x hx => h x (List.mem_cons_of_mem _ hx)),
      ProtectedRoute.step_deactivate_comp]

/-! ### Claims -/

/-- C1: for a `ProtectedRoute` instance whose pending flag is cleared,
`Authenticated` state renders the wrapped children, and `Unauthenticated`
state renders a redirect to `/login`. -/
theorem C1_requireAuth_resolved_render {α : Type} (children : α)
    (s : ComponentState) (h : s.isLoading = false) :
    (s.isAuthenticated = some true →
      ProtectedRoute.render children s = Rendered.content children) ∧
    (s.isAuthenticated = some false →
      ProtectedRoute.render children s = Rendered.redirect "/login") := by
  constructor <;> intro ha <;> simp [ProtectedRoute.render, h, ha, truthy]

/-- Witness for C1 at concrete resolved states. -/
theorem C1_requireAuth_resolved_render_witness :
    ProtectedRoute.render 0
      { isAuthenticated := some true, isLoading := false }
      = Rendered.content 0 ∧
    ProtectedRoute.render 0
      { isAuthenticated := some false, isLoading := false }
      = Rendered.redirect "/login" :=
  ⟨(C1_requireAuth_resolved_render 0 _ rfl).1 rfl,
   (C1_requireAuth_resolved_render 0 _ rfl).2 rfl⟩

/-- C2: from the moment a guard instance is deactivated, no further
component-state write occurs — in particular an initial probe that settles
after deactivation (any event in the tail of the trace) leaves the destroyed
instance's state exactly as it was at deactivation. -/
theorem C2_no_write_after_deactivation (inst : GuardInstance)
    (es : List GuardEvent) :
    (ProtectedRoute.run inst (GuardEvent.deactivate :: es)).comp = inst.comp ∧
    (PublicRoute.run inst (GuardEvent.deactivate :: es)).comp = inst.comp := by
  have hm := ProtectedRoute.step_deactivate_mounted inst
  have h := (ProtectedRoute.run_unmounted _ es hm).1
  have hp : (ProtectedRoute.run inst (GuardEvent.deactivate :: es)).comp
      = inst.comp := by
    rw [ProtectedRoute.run_cons, h, ProtectedRoute.step_deactivate_comp]
  exact ⟨hp, by rw [← guardRun_eq]; exact hp⟩

/-- C3: before the probe settles and before any notification arrives (so the
only events that can have occurred are deactivations), both guards render
the pending indicator — never content, never a redirect. -/
theorem C3_pending_until_resolution {α : Type} (children : α)
    (es : List GuardEvent) (h : ∀ e ∈ es, e = GuardEvent.deactivate) :
    ProtectedRoute.render children
      (ProtectedRoute.run ProtectedRoute.initial es).comp
      = Rendered.pendingIndicator ∧
    PublicRoute.render children
      (PublicRoute.run PublicRoute.initial es).comp
      = Rendered.pendingIndicator := by
  have hp := ProtectedRoute.run_deactivate_only ProtectedRoute.initial es h
  have hq : (PublicRoute.run PublicRoute.initial es).comp
      = ProtectedRoute.initial.comp := by
    rw [← guardRun_eq]; exact hp
  rw [hp, hq]
  exact ⟨rfl, rfl⟩

/-- Witness for C3 on the empty tail of events. -/
theorem C3_pending_until_resolution_witness :
    ProtectedRoute.render 0
      (ProtectedRoute.run ProtectedRoute.initial []).comp
      = Rendered.pendingIndicator :=
  (C3_pending_until_resolution 0 [] (by simp)).1

/-- C4: a rejected probe is caught (the handler is a total function on the
rejection outcome), logged exactly once via `console.error`, and drives both
guards to `Unauthenticated` with loading cleared; `ProtectedRoute` then
renders the `/login` redirect. -/
theorem C4_probe_rejection_fail_closed (inst : GuardInstance)
    (hm : inst.mounted = true) {α : Type} (children : α) :
    (ProtectedRoute.step inst GuardEvent.probeRejected).errorLog
      = inst.errorLog + 1 ∧
    (ProtectedRoute.step inst GuardEvent.probeRejected).comp.isAuthenticated
      = some false ∧
    (ProtectedRoute.step inst GuardEvent.probeRejected).comp.isLoading
      = false ∧
    ProtectedRoute.render children
      (ProtectedRoute.step inst GuardEvent.probeRejected).comp
      = Rendered.redirect "/login" ∧
    (PublicRoute.step inst GuardEvent.probeRejected).errorLog
      = inst.errorLog + 1 ∧
    (PublicRoute.step inst GuardEvent.probeRejected).comp.isAuthenticated
      = some false ∧
    (PublicRoute.step inst GuardEvent.probeRejected).comp.isLoading
      = false := by
  simp [ProtectedRoute.step, ProtectedRoute.onProbeRejected, PublicRoute.step,
    PublicRoute.onProbeRejected, reactSetState, hm, ProtectedRoute.render,
    truthy]

/-- Witness for C4 on a freshly activated instance. -/
theorem C4_probe_rejection_fail_closed_witness :
    (ProtectedRoute.step ProtectedRoute.initial
      GuardEvent.probeRejected).comp.isAuthenticated = some false ∧
    ProtectedRoute.render 0
      (ProtectedRoute.step ProtectedRoute.initial
        GuardEvent.probeRejected).comp = Rendered.redirect "/login" :=
  ⟨(C4_probe_rejection_fail_closed ProtectedRoute.initial rfl 0).2.1,
   (C4_probe_rejection_fail_closed ProtectedRoute.initial rfl 0).2.2.2.1⟩

/-- C5: on a live, subscribed instance each notification overwrites the auth
state with `Authenticated` exactly when the delivered identity is non-null
(`!!user`), regardless of what was there before; and the most recent write
wins in either interleaving of the probe settlement and a notification, for
both guards. -/
theorem C5_notification_last_write_wins (inst : GuardInstance)
    (hm : inst.mounted = true) (hs : inst.subscribed = true)
    (u : Option Nat) (b : Bool) :
    (ProtectedRoute.step inst (GuardEvent.authChanged u)).comp.isAuthenticated
      = some u.isSome ∧
    (ProtectedRoute.run inst
        [GuardEvent.probeFulfilled b,
         GuardEvent.authChanged u]).comp.isAuthenticated = some u.isSome ∧
    (ProtectedRoute.run inst
        [GuardEvent.authChanged u,
         GuardEvent.probeFulfilled b]).comp.isAuthenticated = some b ∧
    (PublicRoute.step inst (GuardEvent.authChanged u)).comp.isAuthenticated
      = some u.isSome ∧
    (PublicRoute.run inst
        [GuardEvent.probeFulfilled b,
         GuardEvent.authChanged u]).comp.isAuthenticated = some u.isSome ∧
    (PublicRoute.run inst
        [GuardEvent.authChanged u,
         GuardEvent.probeFulfilled b]).comp.isAuthenticated = some b := by
  simp [ProtectedRoute.run, PublicRoute.run, ProtectedRoute.step,
    PublicRoute.step, ProtectedRoute.onAuthChanged, PublicRoute.onAuthChanged,
    ProtectedRoute.onProbeFulfilled, PublicRoute.onProbeFulfilled,
    reactSetState, hm, hs]

/-- Witness for C5: probe resolves `Authenticated`, then a `null`-identity
notification arrives; the final state is `Unauthenticated`. -/
theorem C5_notification_last_write_wins_witness :
    (ProtectedRoute.run ProtectedRoute.initial
        [GuardEvent.probeFulfilled true,
         GuardEvent.authChanged none]).comp.isAuthenticated = some false :=
  (C5_notification_last_write_wins ProtectedRoute.initial rfl rfl
    none true).2.1

/-- C6: for a `PublicRoute` instance whose pending flag is cleared,
`Unauthenticated` state renders the wrapped children, and `Authenticated`
state renders a redirect to the landing target `/`. -/
theorem C6_requireAnon_resolved_render {α : Type} (children : α)
    (s : ComponentState) (h : s.isLoading = false) :
    (s.isAuthenticated = some false →
      PublicRoute.render children s = Rendered.content children) ∧
    (s.isAuthenticated = some true →
      PublicRoute.render children s = Rendered.redirect "/") := by
  constructor <;> intro ha <;> simp [PublicRoute.render, h, ha, truthy]

/-- Witness for C6 at concrete resolved states. -/
theorem C6_requireAnon_resolved_render_witness :
    PublicRoute.render 0
      { isAuthenticated := some false, isLoading := false }
      = Rendered.content 0 ∧
    PublicRoute.render 0
      { isAuthenticated := some true, isLoading := false }
      = Rendered.redirect "/" :=
  ⟨(C6_requireAnon_resolved_render 0 _ rfl).1 rfl,
   (C6_requireAnon_resolved_render 0 _ rfl).2 rfl⟩

/-- C7: the route table maps exactly the five declared paths — `/login` to
the anonymous-only guard and the four others to the protected guard — and
every other path renders an unconditional redirect to `/`, whatever the
auth component state. -/
theorem C7_route_table (path : String) (s : ComponentState) :
    App.routeFor "/login" = RouteElement.publicGuard Page.authenticationPage ∧
    App.routeFor "/" = RouteElement.protectedGuard (Page.layout Page.home) ∧
    App.routeFor "/onboarding" = RouteElement.protectedGuard Page.onboarding ∧
    App.routeFor "/manager-dashboard"
      = RouteElement.protectedGuard (Page.layout Page.managerDashboard) ∧
    App.routeFor "/supervisor-dashboard"
      = RouteElement.protectedGuard (Page.layout Page.supervisorDashboard) ∧
    (path ≠ "/login" → path ≠ "/" → path ≠ "/onboarding" →
      path ≠ "/manager-dashboard" → path ≠ "/supervisor-dashboard" →
      renderElement s (App.routeFor path) = Rendered.redirect "/") := by
  refine ⟨rfl, rfl, rfl, rfl, rfl, ?_⟩
  intro h1 h2 h3 h4 h5
  unfold App.routeFor
  rw [if_neg h1, if_neg h2, if_neg h3, if_neg h4, if_neg h5]
  rfl

/-- Witness for C7 at a path outside the table. -/
theorem C7_route_table_witness :
    renderElement { isAuthenticated := some true, isLoading := false }
      (App.routeFor "/missing") = Rendered.redirect "/" :=
  (C7_route_table "/missing"
      { isAuthenticated := some true, isLoading := false }).2.2.2.2.2
    (by decide) (by decide) (by decide) (by decide) (by decide)

/-- C8: any trace from a freshly activated guard that contains a
deactivation ends with `unsubscribe()` having been invoked exactly once and
the subscription released, for both guards. -/
theorem C8_unsubscribe_exactly_once (es : List GuardEvent)
    (h : GuardEvent.deactivate ∈ es) :
    (ProtectedRoute.run ProtectedRoute.initial es).unsubCount = 1 ∧
    (ProtectedRoute.run ProtectedRoute.initial es).subscribed = false ∧
    (PublicRoute.run PublicRoute.initial es).unsubCount = 1 ∧
    (PublicRoute.run PublicRoute.initial es).subscribed = false := by
  obtain ⟨h1, h2⟩ :=
    ProtectedRoute.run_unsub_once ProtectedRoute.initial es rfl rfl h
  refine ⟨h1, h2, ?_, ?_⟩
  · rw [← guardRun_eq]; exact h1
  · rw [← guardRun_eq]; exact h2

/-- Witness for C8 on the trace that deactivates immediately. -/
theorem C8_unsubscribe_exactly_once_witness :
    (ProtectedRoute.run ProtectedRoute.initial
      [GuardEvent.deactivate]).unsubCount = 1 :=
  (C8_unsubscribe_exactly_once [GuardEvent.deactivate]
    (List.mem_cons_self _ _)).1

/-- C9: the two guards share identical state-update mechanics — the same
initial instance and the same step function on every instance and event —
and differ only in the final render branch, whose conditions are exact
negations: on a resolved state, `ProtectedRoute` shows the children exactly
when `PublicRoute` does not — that is, exactly when `PublicRoute` redirects
to `/` — and `ProtectedRoute` redirects to `/login` exactly when
`PublicRoute` shows the children. -/
theorem C9_guards_same_mechanics {α : Type} (children : α) :
    ProtectedRoute.initial = PublicRoute.initial ∧
    (∀ (inst : GuardInstance) (e : GuardEvent),
      ProtectedRoute.step inst e = PublicRoute.step inst e) ∧
    (∀ s : ComponentState, s.isLoading = false →
      ((ProtectedRoute.render children s = Rendered.content children) ↔
        ¬ PublicRoute.render children s = Rendered.content children) ∧
      ((ProtectedRoute.render children s = Rendered.content children) ↔
        PublicRoute.render children s = Rendered.redirect "/") ∧
      ((ProtectedRoute.render children s = Rendered.redirect "/login") ↔
        PublicRoute.render children s = Rendered.content children)) := by
  refine ⟨rfl, guardStep_eq, fun s h => ?_⟩
  unfold ProtectedRoute.render PublicRoute.render
  rw [h]
  cases hb : truthy s.isAuthenticated <;> simp

/-- Witness for C9 at a concrete instance, event, and resolved state. -/
theorem C9_guards_same_mechanics_witness :
    ProtectedRoute.step ProtectedRoute.initial GuardEvent.probeRejected
      = PublicRoute.step ProtectedRoute.initial GuardEvent.probeRejected ∧
    (ProtectedRoute.render 0
        { isAuthenticated := some true, isLoading := false }
        = Rendered.content 0 ↔
      ¬ PublicRoute.render 0
        { isAuthenticated := some true, isLoading := false }
        = Rendered.content 0) :=
  ⟨(C9_guards_same_mechanics (0 : Nat)).2.1 ProtectedRoute.initial
      GuardEvent.probeRejected,
   ((C9_guards_same_mechanics (0 : Nat)).2.2
      { isAuthenticated := some true, isLoading := false } rfl).1⟩

/-- C10: once the probe has settled on a live instance — fulfilled with
either boolean or rejected — the loading flag is false and stays false
across every later event, so neither guard ever renders the pending
indicator again. -/
theorem C10_loading_cleared_after_settlement (inst : GuardInstance)
    (hm : inst.mounted = true) (e : GuardEvent)
    (he : (∃ b, e = GuardEvent.probeFulfilled b) ∨ e = GuardEvent.probeRejected)
    (post : List GuardEvent) {α : Type} (children : α) :
    (ProtectedRoute.run (ProtectedRoute.step inst e) post).comp.isLoading
      = false ∧
    ProtectedRoute.render children
      (ProtectedRoute.run (ProtectedRoute.step inst e) post).comp
      ≠ Rendered.pendingIndicator ∧
    (PublicRoute.run (PublicRoute.step inst e) post).comp.isLoading = false ∧
    PublicRoute.render children
      (PublicRoute.run (PublicRoute.step inst e) post).comp
      ≠ Rendered.pendingIndicator := by
  have hstep : (ProtectedRoute.step inst e).comp.isLoading = false := by
    rcases he with ⟨b, rfl⟩ | rfl
    · simp [ProtectedRoute.step, ProtectedRoute.onProbeFulfilled,
        reactSetState, hm]
    · simp [ProtectedRoute.step, ProtectedRoute.onProbeRejected,
        reactSetState, hm]
  have hrun := ProtectedRoute.run_isLoading _ post hstep
  have hpub : (PublicRoute.run (PublicRoute.step inst e) post).comp.isLoading
      = false := by
    rw [← guardRun_eq, ← guardStep_eq]; exact hrun
  exact ⟨hrun, ProtectedRoute.render_not_pending_prot children _ hrun, hpub,
    PublicRoute.render_not_pending_pub children _ hpub⟩

/-- Witness for C10: the probe rejects on a fresh instance and no further
event occurs; the pending indicator is gone. -/
theorem C10_loading_cleared_after_settlement_witness :
    ProtectedRoute.render 0
      (ProtectedRoute.run
        (ProtectedRoute.step ProtectedRoute.initial GuardEvent.probeRejected)
        []).comp ≠ Rendered.pendingIndicator :=
  (C10_loading_cleared_after_settlement ProtectedRoute.initial rfl
    GuardEvent.probeRejected (Or.inr rfl) [] 0).2.1
